import Mathlib

/-!
Verification development for the use-case matching engine of the ai-tracker
repository.  The definitions below are a shallow embedding of the TypeScript
sources `src/app/lib/usecase-matcher.ts`, `src/app/api/smart-search/route.ts`
and the search page component.  JavaScript numbers are modelled as exact
rationals, string-keyed objects as association lists, and the data fetched at
runtime (catalog, enrichment map, interpreter response) as explicit inputs.
-/

namespace AITracker

/-! ### JavaScript string primitives

The Lean core string functions do not reduce well inside the kernel, so the
character-level operations used by the sources (`toLowerCase`, `includes`,
`trim`, `startsWith`, `endsWith`, `slice`) are modelled over `List Char`.
All inputs handled by this code base are ASCII, and the model implements the
ASCII behaviour of the JavaScript operations. -/

/-- ASCII lower-casing of one character (`String.prototype.toLowerCase`). -/
def jsCharLower (c : Char) : Char :=
  if 'A' ≤ c ∧ c ≤ 'Z' then Char.ofNat (c.toNat + 32) else c

/-- `text.toLowerCase()` on ASCII text. -/
def jsToLower (s : String) : String :=
  String.mk (s.data.map jsCharLower)

/-- `hay.startsWith(needle)` at the character-list level (hay first). -/
def startsWithL : List Char → List Char → Bool
  | _, [] => true
  | [], _ :: _ => false
  | b :: bs, a :: as => a == b && startsWithL bs as

/-- `hay.includes(needle)` at the character-list level (needle first). -/
def containsL (needle : List Char) : List Char → Bool
  | [] => needle.isEmpty
  | b :: bs => startsWithL (b :: bs) needle || containsL needle bs

/-- `hay.includes(needle)` for strings. -/
def jsIncludes (hay needle : String) : Bool :=
  containsL needle.data hay.data

/-- The whitespace characters relevant to `String.prototype.trim` on the
ASCII inputs of this code base. -/
def jsIsSpace (c : Char) : Bool :=
  c == ' ' || c == '\t' || c == '\n' || c == '\r'

/-- `trim` at the character-list level. -/
def trimL (l : List Char) : List Char :=
  ((l.dropWhile jsIsSpace).reverse.dropWhile jsIsSpace).reverse

/-- `s.trim()`. -/
def jsTrim (s : String) : String :=
  String.mk (trimL s.data)

/-- `s.startsWith(p)`. -/
def jsStartsWith (s p : String) : Bool :=
  startsWithL s.data p.data

/-- `s.endsWith(p)`. -/
def jsEndsWith (s p : String) : Bool :=
  startsWithL s.data.reverse p.data.reverse

/-- `s.slice(n)` for ASCII strings. -/
def jsDrop (s : String) (n : Nat) : String :=
  String.mk (s.data.drop n)

/-- `s.slice(0, -n)` for ASCII strings. -/
def jsDropRight (s : String) (n : Nat) : String :=
  String.mk ((s.data.reverse.drop n).reverse)

/-- Truthiness of an optional string value: `undefined`/`null` and the empty
string are falsy, every other string is truthy. -/
def jsTruthy : Option String → Bool
  | none => false
  | some s => !s.data.isEmpty

/-- `v || 0` for an optional numeric value (`tool.final_score || 0`). -/
def jsOr0 : Option ℚ → ℚ
  | none => 0
  | some v => v

/-- Property access `m[k]` on a string-keyed object modelled as an
association list (object keys are unique, so first match is the value). -/
def objGet {α : Type} (m : List (String × α)) (k : String) : Option α :=
  (m.find? (fun p => p.1 == k)).map Prod.snd

/-! ### Data model (`usecase-matcher.ts` interfaces) -/

/-- The `type` field of a use-case compatibility entry. -/
inductive UCType where
  | primary
  | secondary
deriving DecidableEq, BEq

/-- One entry of `use_case_compatibility`. -/
structure UseCaseEntry where
  strength : ℚ
  type : UCType
  notes : String
  limitations : Option (List String)
deriving DecidableEq

/-- `ToolEnrichment.technical_profile`. -/
structure TechnicalProfile where
  coding_level : String
  user_levels : List String
  platform : String
  integrations : Option (List String)
  learning_curve : String
deriving DecidableEq

/-- `ToolEnrichment.best_for`. -/
structure BestFor where
  primary : String
  ideal_user : String
  key_differentiator : String
deriving DecidableEq

/-- `ToolEnrichment.pricing_tier`. -/
structure PricingTier where
  has_free_tier : Bool
  free_tier_limits : Option String
  recommended_tier : String
  enterprise_available : Bool
deriving DecidableEq

/-- `ToolEnrichment` (`enrichment_meta` is omitted: it is never consulted by
the matching code). -/
structure ToolEnrichment where
  use_case_compatibility : List (String × UseCaseEntry)
  technical_profile : TechnicalProfile
  best_for : BestFor
  limitations : List String
  pricing_tier : PricingTier
deriving DecidableEq

/-- `Tool` catalog record.  `final_score` is optional because the source
guards it with `tool.final_score || 0`. -/
structure Tool where
  name : String
  category : String
  description : String
  final_score : Option ℚ
  gartner_quadrant : Option String
  url : Option String
  pricing : Option String
deriving DecidableEq

/-- The runtime value stored in `UserRequirements.use_cases`.  The declared
TypeScript type is `string[]`, but `matchToolsToQuerySmart` assigns a
string-keyed object built with `reduce`, so the JavaScript value is either an
array of tags or an object. -/
inductive UseCasesVal where
  | arr (tags : List String)
  | obj (entries : List (String × String))
deriving DecidableEq

/-- JavaScript `value.length > 0` on a `use_cases` value: for an array it is
the length test; for a plain object `.length` is `undefined` and
`undefined > 0` is `false`. -/
def UseCasesVal.jsLengthPos : UseCasesVal → Bool
  | .arr tags => !tags.isEmpty
  | .obj _ => false

/-- The tags iterated by `for (const reqUseCase of userReqs.use_cases)`;
only reached when the value is an array. -/
def UseCasesVal.tags : UseCasesVal → List String
  | .arr tags => tags
  | .obj _ => []

/-- `UserRequirements`. -/
structure UserRequirements where
  text_input : String
  use_cases : UseCasesVal
  coding_level : Option String
  budget : Option String
  platform : Option String
  experience_level : Option String
deriving DecidableEq

/-- One element of the `matchedUseCases` list built by the scorer. -/
structure MatchedUseCase where
  id : String
  name : String
  strength : ℚ
  type : UCType
deriving DecidableEq

/-- `ToolMatch`. -/
structure ToolMatch where
  tool : Tool
  enrichment : ToolEnrichment
  compatibilityScore : ℚ
  overallScore : ℚ
  matchedUseCases : List MatchedUseCase
  reasoning : List String
  limitations : List String
  confidence : ℚ
deriving DecidableEq

/-- Return value of `calculateCompatibilityScore`. -/
structure ScoreResult where
  score : ℚ
  matchedUseCases : List MatchedUseCase
  confidence : ℚ
deriving DecidableEq

/-! ### Keyword extraction (`KEYWORD_MAP`, `parseUserInput`) -/

/-- The static keyword lexicon, in source order. -/
def KEYWORD_MAP : List (String × List String) := [
  ("presentation", ["business-presentation-creation", "pitch-deck-creation"]),
  ("powerpoint", ["business-presentation-creation", "data-presentation"]),
  ("slides", ["business-presentation-creation", "marketing-presentation"]),
  ("pitch deck", ["pitch-deck-creation"]),
  ("deck", ["pitch-deck-creation", "business-presentation-creation"]),
  ("code", ["full-stack-web-development", "code-generation", "frontend-development"]),
  ("coding", ["full-stack-web-development", "code-generation"]),
  ("developer", ["full-stack-web-development", "code-generation"]),
  ("programming", ["full-stack-web-development", "backend-development"]),
  ("app", ["full-stack-web-development", "mobile-app-development"]),
  ("website", ["full-stack-web-development", "frontend-development"]),
  ("web app", ["full-stack-web-development"]),
  ("frontend", ["frontend-development"]),
  ("backend", ["backend-development"]),
  ("full stack", ["full-stack-web-development"]),
  ("mobile", ["mobile-app-development"]),
  ("react", ["frontend-development"]),
  ("vue", ["frontend-development"]),
  ("angular", ["frontend-development"]),
  ("api", ["backend-development"]),
  ("database", ["database-design", "backend-development"]),
  ("sql", ["database-design", "sql-query-generation"]),
  ("debug", ["debugging"]),
  ("refactor", ["code-refactoring"]),
  ("test", ["test-writing"]),
  ("blog", ["blog-post-writing", "seo-content-writing"]),
  ("article", ["blog-post-writing", "long-form-writing"]),
  ("content", ["marketing-copy", "blog-post-writing"]),
  ("marketing", ["marketing-copy", "social-media-content"]),
  ("copy", ["marketing-copy", "copywriting"]),
  ("email", ["email-drafting", "marketing-copy"]),
  ("social media", ["social-media-content"]),
  ("linkedin", ["social-media-content"]),
  ("twitter", ["social-media-content"]),
  ("seo", ["seo-content-writing"]),
  ("writing", ["long-form-writing", "blog-post-writing"]),
  ("research", ["academic-research", "web-research", "market-research"]),
  ("analyze", ["multi-document-analysis", "data-analysis"]),
  ("analysis", ["multi-document-analysis", "competitive-analysis"]),
  ("document", ["multi-document-analysis", "pdf-analysis"]),
  ("pdf", ["pdf-analysis", "multi-document-analysis"]),
  ("papers", ["academic-research", "multi-document-analysis"]),
  ("study", ["academic-research"]),
  ("summarize", ["summarization", "meeting-summarization"]),
  ("summary", ["summarization"]),
  ("market", ["market-research", "competitive-analysis"]),
  ("competitor", ["competitive-analysis"]),
  ("image", ["image-generation", "image-editing"]),
  ("picture", ["image-generation"]),
  ("photo", ["image-editing", "image-generation"]),
  ("logo", ["logo-design"]),
  ("design", ["ui-design", "logo-design", "mockup-creation"]),
  ("video", ["video-generation", "video-editing"]),
  ("animation", ["video-generation"]),
  ("ui", ["ui-design", "mockup-creation"]),
  ("mockup", ["mockup-creation"]),
  ("diagram", ["diagram-creation"]),
  ("flowchart", ["diagram-creation"]),
  ("audio", ["audio-generation", "voice-cloning"]),
  ("voice", ["voice-cloning", "audio-generation"]),
  ("podcast", ["podcast-generation"]),
  ("meeting", ["meeting-transcription", "meeting-summarization"]),
  ("notes", ["note-taking", "meeting-summarization"]),
  ("transcribe", ["meeting-transcription"]),
  ("task", ["workflow-automation"]),
  ("automate", ["workflow-automation", "automation-scripts"]),
  ("workflow", ["workflow-automation"]),
  ("data", ["data-analysis", "data-visualization"]),
  ("analytics", ["data-analysis", "reporting"]),
  ("dashboard", ["data-visualization", "reporting"]),
  ("chart", ["data-visualization"]),
  ("graph", ["data-visualization"]),
  ("spreadsheet", ["spreadsheet-automation"]),
  ("excel", ["spreadsheet-automation"]),
  ("chatbot", ["chatbot-creation", "customer-support"]),
  ("support", ["customer-support"]),
  ("translate", ["translation"]),
  ("translation", ["translation"]),
  ("grammar", ["grammar-checking", "proofreading"]),
  ("proofread", ["proofreading"]),
  ("business plan", ["business-plan-writing"]),
  ("swot", ["swot-analysis"]),
  ("proposal", ["proposal-writing"])]

/-- `Set.prototype.add`: append a tag unless it is already present (a
JavaScript `Set` keeps insertion order, which `Array.from` preserves). -/
def addTag (acc : List String) (t : String) : List String :=
  if t ∈ acc then acc else acc ++ [t]

/-- `parseUserInput`: collect the use-case tags of every lexicon keyword
contained in the lower-cased text. -/
def parseUserInput (text : String) : List String :=
  let lowercaseText := jsToLower text
  KEYWORD_MAP.foldl
    (fun acc kw => if jsIncludes lowercaseText kw.1 then kw.2.foldl addTag acc else acc)
    []

/-! ### Compatibility scoring (`calculateCompatibilityScore`) -/

/-- Weight of a matched use case: 1.0 for `primary`, 0.5 for `secondary`. -/
def ucWeight : UCType → ℚ
  | .primary => 1
  | .secondary => 1/2

/-- The source's global replace of dashes by spaces on a use-case id. -/
def dashToSpace (s : String) : String :=
  String.mk (s.data.map (fun c => if c == '-' then ' ' else c))

/-- One iteration of the use-case loop of the scorer: accumulate
`(useCaseScore, totalWeight, matchedUseCases)`. -/
def ucFold (enrichment : ToolEnrichment) (acc : ℚ × ℚ × List MatchedUseCase)
    (reqUseCase : String) : ℚ × ℚ × List MatchedUseCase :=
  match objGet enrichment.use_case_compatibility reqUseCase with
  | none => acc
  | some compatibility =>
    let weight := ucWeight compatibility.type
    (acc.1 + compatibility.strength * weight,
     acc.2.1 + weight,
     acc.2.2 ++ [{ id := reqUseCase
                   name := dashToSpace reqUseCase
                   strength := compatibility.strength
                   type := compatibility.type }])

/-- The ordered coding-level scale used for the distance penalty. -/
def codingLevels : List String := ["no-code", "low-code", "developer", "expert"]

/-- `Array.prototype.indexOf`: position of the value, `-1` if absent. -/
def jsIndexOf (l : List String) (s : String) : Int :=
  match l.findIdx? (fun x => x == s) with
  | some i => (i : Int)
  | none => -1

/-- Component 2 of the score: technical level match (20% of score). -/
def codingLevelComponent (userReqs : UserRequirements) (enrichment : ToolEnrichment) : ℚ :=
  if jsTruthy userReqs.coding_level then
    let lvl := userReqs.coding_level.getD ""
    let toolLevel := enrichment.technical_profile.coding_level
    if lvl == toolLevel then 20
    else
      let userIdx := jsIndexOf codingLevels lvl
      let toolIdx := jsIndexOf codingLevels toolLevel
      let distance : Nat := (userIdx - toolIdx).natAbs
      max 0 (20 - (distance : ℚ) * 7)
  else 20

/-- Component 3 of the score: budget match (10% of score).  Budget values
other than free/paid/any fall through every branch and contribute 0. -/
def budgetComponent (userReqs : UserRequirements) (enrichment : ToolEnrichment) : ℚ :=
  if jsTruthy userReqs.budget then
    let b := userReqs.budget.getD ""
    if b == "free" && enrichment.pricing_tier.has_free_tier then 10
    else if b == "paid" || b == "any" then 10
    else 0
  else 10

/-- Component 4 of the score: experience level match (10% of score). -/
def experienceComponent (userReqs : UserRequirements) (enrichment : ToolEnrichment) : ℚ :=
  if jsTruthy userReqs.experience_level then
    if enrichment.technical_profile.user_levels.contains (userReqs.experience_level.getD "")
    then 10 else 5
  else 10

/-- `calculateCompatibilityScore`: weighted sum of the four components,
clamped to at most 100, plus the matched use cases and the confidence. -/
def calculateCompatibilityScore (userReqs : UserRequirements) (tool : Tool)
    (enrichment : ToolEnrichment) : ScoreResult :=
  let maxScore : ℚ := 100
  let base :=
    if userReqs.use_cases.jsLengthPos then
      userReqs.use_cases.tags.foldl (ucFold enrichment) (0, 0, [])
    else (0, 0, [])
  let useCaseScore := base.1
  let totalWeight := base.2.1
  let matchedUseCases := base.2.2
  let ucComponent : ℚ := if 0 < totalWeight then useCaseScore / totalWeight * 60 else 0
  let score := ucComponent + codingLevelComponent userReqs enrichment
    + budgetComponent userReqs enrichment + experienceComponent userReqs enrichment
  let confidence : ℚ :=
    min 100 ((matchedUseCases.length : ℚ) * 30 +
      (if userReqs.use_cases.jsLengthPos then 40 else 20))
  { score := min score maxScore
    matchedUseCases := matchedUseCases
    confidence := confidence }

/-! ### Reasoning generation, ranking and the local matching pipeline -/

/-- `generateReasoning`: the ordered list of human-readable justification
strings.  A JavaScript truthiness test on a string is a non-emptiness test. -/
def generateReasoning (userReqs : UserRequirements) (tool : Tool)
    (enrichment : ToolEnrichment) (matchedUseCases : List MatchedUseCase) : List String :=
  let reasons : List String := []
  let primaryMatches := matchedUseCases.filter (fun m => m.type == UCType.primary)
  let reasons :=
    if !primaryMatches.isEmpty then
      reasons ++ ["Excellent for: " ++
        String.intercalate (", ") (primaryMatches.map (fun m => m.name))]
    else reasons
  let reasons :=
    if !enrichment.best_for.key_differentiator.data.isEmpty then
      reasons ++ [enrichment.best_for.key_differentiator]
    else reasons
  let reasons :=
    if jsTruthy userReqs.coding_level then
      if userReqs.coding_level.getD "" == enrichment.technical_profile.coding_level then
        reasons ++ ["Perfect match for " ++ userReqs.coding_level.getD "" ++ " users"]
      else reasons
    else reasons
  let reasons :=
    if userReqs.budget == some "free" && enrichment.pricing_tier.has_free_tier then
      reasons ++ ["Has a free tier available"]
    else reasons
  reasons

/-- The comparator passed to `matches.sort` in `matchToolsToUserNeeds`:
compatibility score descending, except that candidates within 5 points of
each other are compared by overall score descending. -/
def cmpMatches (a b : ToolMatch) : ℚ :=
  if 5 < |a.compatibilityScore - b.compatibilityScore| then
    b.compatibilityScore - a.compatibilityScore
  else
    b.overallScore - a.overallScore

/-- The `ToolMatch` record pushed for one eligible tool. -/
def mkToolMatch (userInput : UserRequirements) (tool : Tool)
    (enrichment : ToolEnrichment) : ToolMatch :=
  let r := calculateCompatibilityScore userInput tool enrichment
  { tool := tool
    enrichment := enrichment
    compatibilityScore := r.score
    overallScore := jsOr0 tool.final_score
    matchedUseCases := r.matchedUseCases
    reasoning := generateReasoning userInput tool enrichment r.matchedUseCases
    limitations := enrichment.limitations
    confidence := r.confidence }

/-- One iteration of the candidate loop of `matchToolsToUserNeeds`: skip
tools without an enrichment record, score, and keep scores of at least 30. -/
def buildStep (userInput : UserRequirements) (enrichments : List (String × ToolEnrichment))
    (acc : List ToolMatch) (tool : Tool) : List ToolMatch :=
  match objGet enrichments tool.name with
  | none => acc
  | some enrichment =>
    if 30 ≤ (calculateCompatibilityScore userInput tool enrichment).score then
      acc ++ [mkToolMatch userInput tool enrichment]
    else acc

/-- `matchToolsToUserNeeds`: score every enriched tool, keep the eligible
ones, sort with `cmpMatches` and return the top 10.  `Array.prototype.sort`
is required to be stable, which the insertion sort used here is. -/
def matchToolsToUserNeeds (userInput : UserRequirements) (tools : List Tool)
    (enrichments : List (String × ToolEnrichment)) : List ToolMatch :=
  let matchesList := tools.foldl (buildStep userInput enrichments) []
  (matchesList.insertionSort (fun a b => cmpMatches a b ≤ 0)).take 10

/-- `buildUserRequirements`. -/
def buildUserRequirements (textInput : String)
    (codingLevel budget experienceLevel : Option String) : UserRequirements :=
  { text_input := textInput
    use_cases := UseCasesVal.arr (parseUserInput textInput)
    coding_level := codingLevel
    budget := budget
    platform := none
    experience_level := experienceLevel }

/-- One element of a `matchReasons` array.  The source's declared type is
`string[]`, but the values actually pushed are the `reasoning` array itself
(and, in the AI path, also the criteria reasoning string), so an element is
either a string or an array of strings. -/
inductive ReasonVal where
  | str (s : String)
  | arr (l : List String)
deriving DecidableEq

/-- One element of the simplified result list returned to the pages. -/
structure QueryResultItem where
  tool : Tool
  matchScore : ℚ
  matchReasons : List ReasonVal
deriving DecidableEq

/-- `matchToolsToQuery` with the two fetched documents (catalog and
enrichment map) made explicit inputs.  In the source,
`match.reasoning ? [match.reasoning] : []` always takes the first branch
because `reasoning` is an array and every array is truthy, so the single
element pushed into `matchReasons` is the `reasoning` array itself. -/
def matchToolsToQuery (query : String) (tools : List Tool)
    (enrichments : List (String × ToolEnrichment)) : List QueryResultItem :=
  let userRequirements := buildUserRequirements query none none none
  let matchesList := matchToolsToUserNeeds userRequirements tools enrichments
  matchesList.map (fun m =>
    { tool := m.tool
      matchScore := m.compatibilityScore
      matchReasons := [ReasonVal.arr m.reasoning] })

/-! ### Query Interpreter Adapter (`smart-search/route.ts`) -/

/-- The markdown code-fence stripping applied to the interpreter's response
text before `JSON.parse` (the final trim is the `jsonText.trim()` inside the
parse call). -/
def stripFences (responseText : String) : String :=
  let jsonText := jsTrim responseText
  let jsonText :=
    if jsStartsWith jsonText ("```json") then jsDrop jsonText 7
    else if jsStartsWith jsonText ("```") then jsDrop jsonText 3
    else jsonText
  let jsonText := if jsEndsWith jsonText ("```") then jsDropRight jsonText 3 else jsonText
  jsTrim jsonText

/-- `SearchCriteria.constraints`. -/
structure SearchConstraints where
  codingLevel : Option String
  budget : Option String
  experienceLevel : Option String
deriving DecidableEq

/-- The structured criteria parsed from the interpreter response. -/
structure SearchCriteria where
  useCases : List String
  excludeTools : List String
  requiredFeatures : List String
  constraints : SearchConstraints
  reasoning : String
deriving DecidableEq

/-- The JSON body returned by the `/api/smart-search` route: `success` plus,
when successful, the criteria. -/
structure SmartBody where
  success : Bool
  criteria : Option SearchCriteria
deriving DecidableEq

/-- Outcome of the `fetch` to `/api/smart-search` as observed by the client:
either the promise chain rejected (network error or invalid JSON body), or a
response with its HTTP `ok` flag and parsed body was obtained. -/
inductive FetchOutcome where
  | rejected
  | response (ok : Bool) (body : SmartBody)
deriving DecidableEq

/-- The mode discriminator of a smart search result. -/
inductive SearchMode where
  | aiPowered
  | fallback
deriving DecidableEq

/-- Return value of `matchToolsToQuerySmart`. -/
structure SmartSearchResult where
  results : List QueryResultItem
  mode : SearchMode
  aiReasoning : Option String
deriving DecidableEq

/-! ### Smart AI-powered search (`matchToolsToQuerySmart`) -/

/-- `criteria.useCases.reduce((acc, uc) => (acc[uc] = 'high', acc), {})`:
the string-keyed object built in the AI path (keys in first-occurrence
order, every value the string high). -/
def smartUseCasesObj (useCases : List String) : List (String × String) :=
  useCases.foldl
    (fun acc uc => if acc.any (fun p => p.1 == uc) then acc else acc ++ [(uc, "high")])
    []

/-- The `UserRequirements` record built in the AI path.  Its `use_cases`
field holds an object, not an array. -/
def smartUserRequirements (query : String) (criteria : SearchCriteria) : UserRequirements :=
  { text_input := query
    use_cases := UseCasesVal.obj (smartUseCasesObj criteria.useCases)
    coding_level := criteria.constraints.codingLevel
    budget := criteria.constraints.budget
    platform := none
    experience_level := criteria.constraints.experienceLevel }

/-- The first AI-path filter: explicit exclusions and the asymmetric
coding-level exclusions (applied only when a coding level was extracted and
the tool has an enrichment record). -/
def constraintFilterKeep (criteria : SearchCriteria)
    (enrichments : List (String × ToolEnrichment)) (tool : Tool) : Bool :=
  if criteria.excludeTools.contains tool.name then false
  else
    match objGet enrichments tool.name with
    | none => true
    | some enrichment =>
      if jsTruthy criteria.constraints.codingLevel then
        let cl := criteria.constraints.codingLevel.getD ""
        let toolCodingLevel := enrichment.technical_profile.coding_level
        if cl == "no-code" &&
            (toolCodingLevel == "developer" || toolCodingLevel == "expert") then false
        else if cl == "expert" && toolCodingLevel == "no-code" then false
        else true
      else true

/-- The use-case intersection test of the second AI-path filter: the source
compares `compatibility.strength >= 0.3` (the comment next to it says "At
least 30% compatibility" although strengths are on a 0-100 scale). -/
def hasMatchingUseCase (criteria : SearchCriteria) (enrichment : ToolEnrichment) : Bool :=
  criteria.useCases.any (fun useCase =>
    match objGet enrichment.use_case_compatibility useCase with
    | none => false
    | some compatibility => decide ((3 : ℚ)/10 ≤ compatibility.strength))

/-- The second AI-path filter: drop tools without an enrichment record or
without any requested use case passing `hasMatchingUseCase`.  (The source
also tests `!enrichment.use_case_compatibility`, but in the typed model the
field is always present and even an empty object is truthy.) -/
def useCaseFilterKeep (criteria : SearchCriteria)
    (enrichments : List (String × ToolEnrichment)) (tool : Tool) : Bool :=
  match objGet enrichments tool.name with
  | none => false
  | some enrichment => hasMatchingUseCase criteria enrichment

/-- The AI-powered branch of `matchToolsToQuerySmart` after a successful
interpreter response. -/
def aiPathResults (query : String) (criteria : SearchCriteria) (tools : List Tool)
    (enrichments : List (String × ToolEnrichment)) : SmartSearchResult :=
  let filteredTools := tools.filter (constraintFilterKeep criteria enrichments)
  let useCaseFilteredTools := filteredTools.filter (useCaseFilterKeep criteria enrichments)
  let userRequirements := smartUserRequirements query criteria
  let matchesList := matchToolsToUserNeeds userRequirements useCaseFilteredTools enrichments
  { results := matchesList.map (fun m =>
      { tool := m.tool
        matchScore := m.compatibilityScore
        matchReasons := [ReasonVal.arr m.reasoning, ReasonVal.str criteria.reasoning] })
    mode := SearchMode.aiPowered
    aiReasoning := some criteria.reasoning }

/-- The catch branch of `matchToolsToQuerySmart`: local search results with
the fallback mode flag. -/
def fallbackResult (query : String) (tools : List Tool)
    (enrichments : List (String × ToolEnrichment)) : SmartSearchResult :=
  { results := matchToolsToQuery query tools enrichments
    mode := SearchMode.fallback
    aiReasoning := none }

/-- `matchToolsToQuerySmart` with the interpreter fetch outcome and the two
data documents as explicit inputs.  A rejected fetch, a non-ok response, a
body without `success`, or a successful body with no criteria object (whose
field accesses would throw) all land in the catch branch and fall back. -/
def matchToolsToQuerySmart (query : String) (outcome : FetchOutcome) (tools : List Tool)
    (enrichments : List (String × ToolEnrichment)) : SmartSearchResult :=
  match outcome with
  | FetchOutcome.rejected => fallbackResult query tools enrichments
  | FetchOutcome.response ok body =>
    if !ok || !body.success then fallbackResult query tools enrichments
    else
      match body.criteria with
      | none => fallbackResult query tools enrichments
      | some criteria => aiPathResults query criteria tools enrichments

/-- The detection step of the Home page component: `parseUserInput` is
called only when `searchText.length > 3`, otherwise the detected use cases
are set to the empty list. -/
def homeDetectedUseCases (searchText : String) : List String :=
  if 3 < searchText.data.length then parseUserInput searchText else []

/-! ### Concrete test data used by the theorems below -/

/-- A minimal enrichment record (no use-case entries, nothing truthy). -/
def dummyEnrichment : ToolEnrichment :=
  { use_case_compatibility := [],
    technical_profile :=
      { coding_level := "no-code", user_levels := [],
        platform := "web", integrations := none, learning_curve := "easy" },
    best_for := { primary := "", ideal_user := "", key_differentiator := "" },
    limitations := [],
    pricing_tier :=
      { has_free_tier := false, free_tier_limits := none,
        recommended_tier := "pro", enterprise_available := false } }

/-- A minimal catalog record. -/
def dummyTool : Tool :=
  { name := "D", category := "misc", description := "", final_score := some 50,
    gartner_quadrant := none, url := none, pricing := none }

/-- Candidate with compatibility 31 and overall 100. -/
def m4a : ToolMatch :=
  { tool := dummyTool, enrichment := dummyEnrichment, compatibilityScore := 31,
    overallScore := 100, matchedUseCases := [], reasoning := [], limitations := [],
    confidence := 20 }

/-- Candidate with compatibility 35 and overall 99. -/
def m4b : ToolMatch :=
  { tool := dummyTool, enrichment := dummyEnrichment, compatibilityScore := 35,
    overallScore := 99, matchedUseCases := [], reasoning := [], limitations := [],
    confidence := 20 }

/-- Candidate with compatibility 39 and overall 50. -/
def m4c : ToolMatch :=
  { tool := dummyTool, enrichment := dummyEnrichment, compatibilityScore := 39,
    overallScore := 50, matchedUseCases := [], reasoning := [], limitations := [],
    confidence := 20 }

/-- The enrichment of the spec's Scenario A tool: a single `website-creation`
entry of strength 95 and type primary, developer coding level. -/
def enr5 : ToolEnrichment :=
  { use_case_compatibility := [("website-creation",
      { strength := 95, type := UCType.primary, notes := "", limitations := none })],
    technical_profile :=
      { coding_level := "developer", user_levels := ["intermediate", "expert"],
        platform := "web", integrations := none, learning_curve := "moderate" },
    best_for := { primary := "", ideal_user := "", key_differentiator := "" },
    limitations := [],
    pricing_tier :=
      { has_free_tier := true, free_tier_limits := none,
        recommended_tier := "pro", enterprise_available := true } }

/-- The Scenario A catalog tool. -/
def tool5 : Tool :=
  { name := "WebBuilder", category := "dev", description := "", final_score := some 80,
    gartner_quadrant := none, url := none, pricing := none }

/-- The Scenario A requirement: the query with no explicit constraints. -/
def reqs5 : UserRequirements :=
  buildUserRequirements ("Build a full-stack web application") none none none

/-- An enriched tool for exercising the fallback pipeline. -/
def enr9 : ToolEnrichment := dummyEnrichment

/-- A catalog tool named T with overall score 80. -/
def tool9 : Tool :=
  { name := "T", category := "misc", description := "", final_score := some 80,
    gartner_quadrant := none, url := none, pricing := none }

/-- The requirement built from the keyword-free query hello. -/
def reqs9 : UserRequirements := buildUserRequirements ("hello") none none none

/-- The match produced for `tool9` under `reqs9`: no matched use cases, the
three unconstrained components 20+10+10 = 40, confidence 20. -/
def match9 : ToolMatch :=
  { tool := tool9, enrichment := enr9, compatibilityScore := 40, overallScore := 80,
    matchedUseCases := [], reasoning := [], limitations := [], confidence := 20 }

/-- Interpreter criteria requesting one use case, with no exclusions and no
constraints. -/
def criteria7 : SearchCriteria :=
  { useCases := ["blog-post-writing"], excludeTools := [], requiredFeatures := [],
    constraints := { codingLevel := none, budget := none, experienceLevel := none },
    reasoning := "weak match demo" }

/-- An enrichment whose only entry for the requested use case has strength 5,
far below 30. -/
def enr7 : ToolEnrichment :=
  { use_case_compatibility := [("blog-post-writing",
      { strength := 5, type := UCType.secondary, notes := "", limitations := none })],
    technical_profile :=
      { coding_level := "no-code", user_levels := [],
        platform := "web", integrations := none, learning_curve := "easy" },
    best_for := { primary := "", ideal_user := "", key_differentiator := "" },
    limitations := [],
    pricing_tier :=
      { has_free_tier := false, free_tier_limits := none,
        recommended_tier := "pro", enterprise_available := false } }

/-- The weakly-matching catalog tool. -/
def tool7 : Tool :=
  { name := "WeakTool", category := "misc", description := "", final_score := some 70,
    gartner_quadrant := none, url := none, pricing := none }

/-- The AI-path result item produced for `tool7` under `criteria7`. -/
def item7 : QueryResultItem :=
  { tool := tool7, matchScore := 40,
    matchReasons := [ReasonVal.arr [], ReasonVal.str criteria7.reasoning] }

/-! ### Helper lemmas -/

/-- A successful object lookup returns the value of some stored pair. -/
lemma objGet_mem {α : Type} {m : List (String × α)} {k : String} {v : α}
    (h : objGet m k = some v) : ∃ p ∈ m, p.2 = v := by
  unfold objGet at h
  cases hf : m.find? (fun p => p.1 == k) with
  | none => rw [hf] at h; cases h
  | some p =>
    rw [hf] at h
    exact ⟨p, List.mem_of_find?_eq_some hf, by injection h⟩

/-- Every use-case weight is positive. -/
lemma ucWeight_pos (t : UCType) : 0 < ucWeight t := by
  cases t <;> norm_num [ucWeight]

/-- The use-case accumulation loop keeps the weighted score sum and the
weight sum nonnegative when every stored strength is nonnegative. -/
lemma ucFold_nonneg {enrichment : ToolEnrichment}
    (hstr : ∀ p ∈ enrichment.use_case_compatibility, 0 ≤ p.2.strength) :
    ∀ (tags : List String) (acc : ℚ × ℚ × List MatchedUseCase),
      0 ≤ acc.1 → 0 ≤ acc.2.1 →
      0 ≤ (tags.foldl (ucFold enrichment) acc).1 ∧
      0 ≤ (tags.foldl (ucFold enrichment) acc).2.1
  | [], acc, h1, h2 => ⟨h1, h2⟩
  | tag :: tags, acc, h1, h2 => by
    rw [List.foldl_cons]
    apply ucFold_nonneg hstr tags
    · unfold ucFold
      cases hg : objGet enrichment.use_case_compatibility tag with
      | none => exact h1
      | some compatibility =>
        obtain ⟨p, hp, hpv⟩ := objGet_mem hg
        have hs : 0 ≤ compatibility.strength := hpv ▸ hstr p hp
        have hw : 0 < ucWeight compatibility.type := ucWeight_pos _
        exact add_nonneg h1 (mul_nonneg hs hw.le)
    · unfold ucFold
      cases hg : objGet enrichment.use_case_compatibility tag with
      | none => exact h2
      | some compatibility =>
        exact add_nonneg h2 (ucWeight_pos compatibility.type).le

/-- The coding-level component is nonnegative. -/
lemma codingLevelComponent_nonneg (u : UserRequirements) (e : ToolEnrichment) :
    0 ≤ codingLevelComponent u e := by
  unfold codingLevelComponent
  dsimp only
  split
  · split
    · norm_num
    · exact le_max_left 0 _
  · norm_num

/-- The coding-level component is at most 20. -/
lemma codingLevelComponent_le (u : UserRequirements) (e : ToolEnrichment) :
    codingLevelComponent u e ≤ 20 := by
  unfold codingLevelComponent
  dsimp only
  split
  · split
    · norm_num
    · apply max_le (by norm_num)
      have h : (0:ℚ) ≤ (((jsIndexOf codingLevels (u.coding_level.getD "") -
          jsIndexOf codingLevels e.technical_profile.coding_level).natAbs : ℚ)) := by
        positivity
      linarith
  · norm_num

/-- The budget component is nonnegative. -/
lemma budgetComponent_nonneg (u : UserRequirements) (e : ToolEnrichment) :
    0 ≤ budgetComponent u e := by
  unfold budgetComponent
  dsimp only
  split
  · split
    · norm_num
    · split <;> norm_num
  · norm_num

/-- The budget component is at most 10. -/
lemma budgetComponent_le (u : UserRequirements) (e : ToolEnrichment) :
    budgetComponent u e ≤ 10 := by
  unfold budgetComponent
  dsimp only
  split
  · split
    · norm_num
    · split <;> norm_num
  · norm_num

/-- The experience component is nonnegative. -/
lemma experienceComponent_nonneg (u : UserRequirements) (e : ToolEnrichment) :
    0 ≤ experienceComponent u e := by
  unfold experienceComponent
  split
  · split <;> norm_num
  · norm_num

/-- The experience component is at most 10. -/
lemma experienceComponent_le (u : UserRequirements) (e : ToolEnrichment) :
    experienceComponent u e ≤ 10 := by
  unfold experienceComponent
  split
  · split <;> norm_num
  · norm_num

/-- When `use_cases` holds an object, the scorer skips the use-case loop
and degenerates to the three remaining components. -/
lemma calculateCompatibilityScore_obj_eval (userReqs : UserRequirements) (tool : Tool)
    (enrichment : ToolEnrichment) (entries : List (String × String))
    (h : userReqs.use_cases = UseCasesVal.obj entries) :
    calculateCompatibilityScore userReqs tool enrichment =
      { score := min (codingLevelComponent userReqs enrichment +
          budgetComponent userReqs enrichment + experienceComponent userReqs enrichment) 100,
        matchedUseCases := [],
        confidence := 20 } := by
  have hlen : userReqs.use_cases.jsLengthPos = false := by
    rw [h]; rfl
  simp only [calculateCompatibilityScore, hlen, Bool.false_eq_true, if_false]
  norm_num [ScoreResult.mk.injEq]

/-- When `use_cases` holds an object, the scorer reports no matched use
cases, confidence exactly 20, and a score of at most 40. -/
lemma score_obj (userReqs : UserRequirements) (tool : Tool) (enrichment : ToolEnrichment)
    (entries : List (String × String)) (h : userReqs.use_cases = UseCasesVal.obj entries) :
    (calculateCompatibilityScore userReqs tool enrichment).matchedUseCases = [] ∧
    (calculateCompatibilityScore userReqs tool enrichment).confidence = 20 ∧
    (calculateCompatibilityScore userReqs tool enrichment).score ≤ 40 := by
  rw [calculateCompatibilityScore_obj_eval userReqs tool enrichment entries h]
  refine ⟨rfl, rfl, ?_⟩
  have h2 := codingLevelComponent_le userReqs enrichment
  have h3 := budgetComponent_le userReqs enrichment
  have h4 := experienceComponent_le userReqs enrichment
  refine le_trans (min_le_left _ _) ?_
  linarith

/-- Every element of the candidate-building fold is either from the initial
accumulator or an eligible scored tool. -/
lemma mem_buildFold (userInput : UserRequirements)
    (enrichments : List (String × ToolEnrichment)) :
    ∀ (tools : List Tool) (acc : List ToolMatch) (x : ToolMatch),
      x ∈ tools.foldl (buildStep userInput enrichments) acc →
      x ∈ acc ∨ ∃ tool enrichment, objGet enrichments tool.name = some enrichment ∧
        30 ≤ (calculateCompatibilityScore userInput tool enrichment).score ∧
        x = mkToolMatch userInput tool enrichment
  | [], _, x, hx => Or.inl hx
  | tool :: tools, acc, x, hx => by
    rw [List.foldl_cons] at hx
    rcases mem_buildFold userInput enrichments tools _ x hx with h | h
    · cases hg : objGet enrichments tool.name with
      | none =>
        have hb : buildStep userInput enrichments acc tool = acc := by
          unfold buildStep; rw [hg]
        rw [hb] at h
        exact Or.inl h
      | some enrichment =>
        have hb : buildStep userInput enrichments acc tool =
            if 30 ≤ (calculateCompatibilityScore userInput tool enrichment).score then
              acc ++ [mkToolMatch userInput tool enrichment]
            else acc := by
          unfold buildStep; rw [hg]
        rw [hb] at h
        by_cases hc : 30 ≤ (calculateCompatibilityScore userInput tool enrichment).score
        · rw [if_pos hc] at h
          rcases List.mem_append.mp h with h1 | h1
          · exact Or.inl h1
          · exact Or.inr ⟨tool, enrichment, hg, hc, List.mem_singleton.mp h1⟩
        · rw [if_neg hc] at h; exact Or.inl h
    · exact Or.inr h

/-- Every element of `matchToolsToUserNeeds` is an eligible scored tool. -/
lemma mem_matchToolsToUserNeeds {userInput : UserRequirements} {tools : List Tool}
    {enrichments : List (String × ToolEnrichment)} {x : ToolMatch}
    (h : x ∈ matchToolsToUserNeeds userInput tools enrichments) :
    ∃ tool enrichment, objGet enrichments tool.name = some enrichment ∧
      30 ≤ (calculateCompatibilityScore userInput tool enrichment).score ∧
      x = mkToolMatch userInput tool enrichment := by
  unfold matchToolsToUserNeeds at h
  have h1 := List.take_subset 10 _ h
  rw [List.mem_insertionSort] at h1
  rcases mem_buildFold userInput enrichments tools [] x h1 with h2 | h2
  · cases h2
  · exact h2

/-- A list starts with any of its own preserved leading segments. -/
lemma startsWithL_self_append : ∀ (p l : List Char), startsWithL (p ++ l) p = true
  | [], l => by cases l <;> rfl
  | a :: as, l => by
    simp [startsWithL, startsWithL_self_append as l]

/-- Trimming ignores a leading whitespace character. -/
lemma trimL_cons_ws {c : Char} (h : jsIsSpace c = true) (l : List Char) :
    trimL (c :: l) = trimL l := by
  unfold trimL
  rw [List.dropWhile_cons, if_pos h]

/-- Trimming ignores a trailing whitespace character. -/
lemma trimL_append_ws {c : Char} (h : jsIsSpace c = true) (l : List Char) :
    trimL (l ++ [c]) = trimL l := by
  unfold trimL
  rw [List.dropWhile_append]
  by_cases he : (l.dropWhile jsIsSpace).isEmpty
  · rw [if_pos he]
    rw [List.isEmpty_iff] at he
    rw [he, List.dropWhile_cons, if_pos h]
    rfl
  · rw [if_neg he]
    rw [List.reverse_append]
    have : ([c] : List Char).reverse = [c] := rfl
    rw [this]
    rw [show ([c] : List Char) ++ (l.dropWhile jsIsSpace).reverse =
      c :: (l.dropWhile jsIsSpace).reverse from rfl]
    rw [List.dropWhile_cons, if_pos h]

/-- A list that starts and ends with a non-whitespace character is its own
trim. -/
lemma trimL_no_ws (x y : Char) (m : List Char)
    (hx : jsIsSpace x = false) (hy : jsIsSpace y = false) :
    trimL (x :: (m ++ [y])) = x :: (m ++ [y]) := by
  unfold trimL
  rw [List.dropWhile_cons, if_neg (by simp [hx])]
  rw [show (x :: (m ++ [y])).reverse = y :: (m.reverse ++ [x]) by simp]
  rw [List.dropWhile_cons, if_neg (by simp [hy])]
  simp

/-- Trimming strips one newline on each side of a wrapped text. -/
lemma trimL_wrap (t : List Char) :
    trimL ('\n' :: (t ++ ['\n'])) = trimL t := by
  rw [show ('\n' :: (t ++ ['\n'])) = ('\n' :: t) ++ ['\n'] from rfl]
  rw [trimL_append_ws (by decide), trimL_cons_ws (by decide)]

/-! ### Evaluation lemmas on the concrete test data -/

/-- The keyword-free query hello yields no tags. -/
lemma parse_hello : parseUserInput ("hello") = [] := by decide

/-- Scorer evaluation for the hello fixture: three unconstrained components
and no use-case contribution. -/
lemma score_eval9 : calculateCompatibilityScore reqs9 tool9 enr9 =
    ({ score := 40, matchedUseCases := [], confidence := 20 } : ScoreResult) := by
  have h : (if reqs9.use_cases.jsLengthPos then
      reqs9.use_cases.tags.foldl (ucFold enr9) (0, 0, [])
    else (0, 0, [])) = ((0 : ℚ), (0 : ℚ), ([] : List MatchedUseCase)) := by decide
  rw [calculateCompatibilityScore, h]
  norm_num [codingLevelComponent, budgetComponent, experienceComponent, jsTruthy,
    reqs9, buildUserRequirements, parse_hello, UseCasesVal.jsLengthPos, min_def,
    ScoreResult.mk.injEq]

/-- The match record built for the hello fixture. -/
lemma mk_eval9 : mkToolMatch reqs9 tool9 enr9 = match9 := by
  have hd : ("" : String).data = ([] : List Char) := by decide
  simp only [mkToolMatch, score_eval9]
  simp [generateReasoning, jsTruthy, match9, jsOr0, enr9, dummyEnrichment, tool9, hd,
    reqs9, buildUserRequirements, ToolMatch.mk.injEq]

/-- Pipeline evaluation for the hello fixture. -/
lemma needs_eval9 : matchToolsToUserNeeds reqs9 [tool9] [("T", enr9)] = [match9] := by
  have hobj : objGet [("T", enr9)] tool9.name = some enr9 := by decide
  rw [matchToolsToUserNeeds]
  simp only [List.foldl, buildStep, hobj, score_eval9, mk_eval9]
  norm_num [List.insertionSort]

/-- Scorer evaluation for the AI-path fixture: the object-valued `use_cases`
suppresses the use-case component. -/
lemma score_eval7 :
    calculateCompatibilityScore (smartUserRequirements ("q") criteria7) tool7 enr7 =
      ({ score := 40, matchedUseCases := [], confidence := 20 } : ScoreResult) := by
  rw [calculateCompatibilityScore_obj_eval _ _ _ _ rfl]
  norm_num [codingLevelComponent, budgetComponent, experienceComponent, jsTruthy,
    smartUserRequirements, criteria7, min_def, ScoreResult.mk.injEq]

/-- The match record built for the AI-path fixture. -/
lemma mk_eval7 : mkToolMatch (smartUserRequirements ("q") criteria7) tool7 enr7 =
    { tool := tool7, enrichment := enr7, compatibilityScore := 40, overallScore := 70,
      matchedUseCases := [], reasoning := [], limitations := [], confidence := 20 } := by
  have hd : ("" : String).data = ([] : List Char) := by decide
  simp only [mkToolMatch, score_eval7]
  simp [generateReasoning, jsTruthy, jsOr0, enr7, tool7, hd,
    smartUserRequirements, criteria7, ToolMatch.mk.injEq]

/-- The weak-strength tool passes both AI-path filters and produces the
single result item. -/
lemma ai_eval7 : (aiPathResults ("q") criteria7 [tool7] [("WeakTool", enr7)]).results =
    [item7] := by
  have hk1 : constraintFilterKeep criteria7 [("WeakTool", enr7)] tool7 = true := by decide
  have hk2 : useCaseFilterKeep criteria7 [("WeakTool", enr7)] tool7 = true := by
    have hobj : objGet [("WeakTool", enr7)] tool7.name = some enr7 := by decide
    simp only [useCaseFilterKeep, hobj, hasMatchingUseCase]
    norm_num [criteria7, objGet, enr7, List.find?]
  have hobj : objGet [("WeakTool", enr7)] tool7.name = some enr7 := by decide
  unfold aiPathResults
  simp only [List.filter, hk1, hk2]
  rw [matchToolsToUserNeeds]
  simp only [List.foldl, buildStep, hobj, score_eval7, mk_eval7]
  norm_num [List.insertionSort, item7]

/-- The Scenario A query detects four tags, none of which is in the tool's
enrichment map. -/
lemma parse_scenario_a : parseUserInput ("Build a full-stack web application") =
    ["full-stack-web-development", "mobile-app-development", "ui-design", "mockup-creation"] := by
  decide

/-- Scorer evaluation for the Scenario A fixture: no tag matches the
enrichment, so the score is the three default components. -/
lemma score_eval5 : calculateCompatibilityScore reqs5 tool5 enr5 =
    ({ score := 40, matchedUseCases := [], confidence := 40 } : ScoreResult) := by
  have h : (if reqs5.use_cases.jsLengthPos then
      reqs5.use_cases.tags.foldl (ucFold enr5) (0, 0, [])
    else (0, 0, [])) = ((0 : ℚ), (0 : ℚ), ([] : List MatchedUseCase)) := by decide
  have hlen : (UseCasesVal.arr
      (parseUserInput ("Build a full-stack web application"))).jsLengthPos = true := by decide
  rw [calculateCompatibilityScore, h]
  norm_num [codingLevelComponent, budgetComponent, experienceComponent, jsTruthy,
    hlen, reqs5, buildUserRequirements, min_def, ScoreResult.mk.injEq]

/-! ### Claim theorems -/

/-- Claim C1: whenever the call to the Query Interpreter Adapter rejects,
returns a non-ok response, or returns a payload without `success = true`,
`matchToolsToQuerySmart` still returns normally, with mode `fallback` and
exactly the results of the local path `matchToolsToQuery`. -/
theorem c1_fallback_totality (query : String) (outcome : FetchOutcome) (tools : List Tool)
    (enrichments : List (String × ToolEnrichment))
    (h : outcome = FetchOutcome.rejected ∨
      ∃ ok body, outcome = FetchOutcome.response ok body ∧ (ok = false ∨ body.success = false)) :
    matchToolsToQuerySmart query outcome tools enrichments =
      { results := matchToolsToQuery query tools enrichments,
        mode := SearchMode.fallback,
        aiReasoning := none } := by
  rcases h with rfl | ⟨ok, body, rfl, h2⟩
  · rfl
  · rcases h2 with rfl | h3
    · rfl
    · simp [matchToolsToQuerySmart, h3, fallbackResult]

/-- Witness for claim C1 at a concrete non-success response. -/
theorem c1_fallback_totality_witness :
    matchToolsToQuerySmart ("hi")
        (FetchOutcome.response true { success := false, criteria := none }) [] [] =
      { results := matchToolsToQuery ("hi") [] [],
        mode := SearchMode.fallback,
        aiReasoning := none } :=
  c1_fallback_totality ("hi") _ [] []
    (Or.inr ⟨true, { success := false, criteria := none }, rfl, Or.inr rfl⟩)

/-- Claim C2: every element of the list returned by `matchToolsToUserNeeds`
has a compatibility score of at least 30. -/
theorem c2_threshold_law (userInput : UserRequirements) (tools : List Tool)
    (enrichments : List (String × ToolEnrichment)) (m : ToolMatch)
    (h : m ∈ matchToolsToUserNeeds userInput tools enrichments) :
    30 ≤ m.compatibilityScore := by
  obtain ⟨tool, enrichment, _, hge, rfl⟩ := mem_matchToolsToUserNeeds h
  simpa [mkToolMatch] using hge

/-- Witness for claim C2 on a concrete returned match. -/
theorem c2_threshold_law_witness :
    match9 ∈ matchToolsToUserNeeds reqs9 [tool9] [("T", enr9)] ∧
    30 ≤ match9.compatibilityScore := by
  have h : match9 ∈ matchToolsToUserNeeds reqs9 [tool9] [("T", enr9)] := by
    rw [needs_eval9]
    exact List.mem_singleton.mpr rfl
  exact ⟨h, c2_threshold_law reqs9 [tool9] [("T", enr9)] match9 h⟩

/-- Claim C5 counterexample: for the Scenario A query and tool the pipeline
yields a compatibility score of 40, nowhere near the claimed 97. -/
theorem c5_scenario_a_counterexample :
    (calculateCompatibilityScore reqs5 tool5 enr5).score = 40 ∧
    ¬ (92 ≤ (calculateCompatibilityScore reqs5 tool5 enr5).score) := by
  rw [score_eval5]
  norm_num

/-- Claim C5 as amended: the extractor detects four development and design
tags for the Scenario A query, none is `website-creation`, so the tool's
use-case component is 0 and the total score is 20+10+10 = 40. -/
theorem c5_scenario_a_actual :
    parseUserInput ("Build a full-stack web application") =
      ["full-stack-web-development", "mobile-app-development", "ui-design", "mockup-creation"] ∧
    (calculateCompatibilityScore reqs5 tool5 enr5).matchedUseCases = [] ∧
    (calculateCompatibilityScore reqs5 tool5 enr5).score = 20 + 10 + 10 := by
  refine ⟨parse_scenario_a, ?_, ?_⟩ <;> rw [score_eval5] <;> norm_num

/-- Claim C6 counterexample: the 2-character text ui makes `parseUserInput`
scan the table and return two tags, not the empty set. -/
theorem c6_short_input_counterexample :
    ("ui" : String).data.length < 4 ∧
    parseUserInput ("ui") = ["ui-design", "mockup-creation"] ∧
    parseUserInput ("ui") ≠ [] := by decide

/-- Claim C6 as amended: the minimum-length guard lives in the Home page
component, which returns the empty set for text shorter than 4 characters
without calling `parseUserInput`; the extractor itself has no length check. -/
theorem c6_short_input_guard (s : String) (h : s.data.length < 4) :
    homeDetectedUseCases s = [] := by
  unfold homeDetectedUseCases
  rw [if_neg (by omega)]

/-- Witness for the amended claim C6 at the concrete text ui. -/
theorem c6_short_input_guard_witness : homeDetectedUseCases ("ui") = [] :=
  c6_short_input_guard ("ui") (by decide)

/-- Claim C7: a tool whose only compatibility with a requested use case has
strength 5 (below 30, but at least the source's literal 0.3) passes the
use-case intersection filter and reaches the AI-path results. -/
theorem c7_use_case_filter_threshold :
    hasMatchingUseCase criteria7 enr7 = true ∧
    (∀ p ∈ enr7.use_case_compatibility, p.2.strength < 30) ∧
    (aiPathResults ("q") criteria7 [tool7] [("WeakTool", enr7)]).results.map
      (fun r => r.tool.name) = ["WeakTool"] := by
  refine ⟨?_, ?_, ?_⟩
  · simp only [hasMatchingUseCase, criteria7]
    norm_num [objGet, enr7, List.find?]
  · intro p hp
    rw [show enr7.use_case_compatibility = [("blog-post-writing",
      { strength := 5, type := UCType.secondary, notes := "", limitations := none })] from rfl]
      at hp
    rw [List.mem_singleton.mp hp]
    norm_num
  · rw [ai_eval7]
    rfl

/-- Claim C9: at the failing input, the single `matchReasons` element pushed
by `matchToolsToQuery` is the reasons array itself, not a string. -/
theorem c9_match_reasons_shape :
    (matchToolsToQuery ("hello") [tool9] [("T", enr9)]).map (fun r => r.matchReasons) =
      [[ReasonVal.arr []]] ∧
    ∀ s : String, ReasonVal.arr [] ≠ ReasonVal.str s := by
  constructor
  · simp only [matchToolsToQuery]
    rw [show buildUserRequirements ("hello") none none none = reqs9 from rfl, needs_eval9]
    rfl
  · intro s h
    cases h

/-- Claim C10: because the AI path stores a string-keyed object in
`use_cases`, the scorer finds no iterable tags: it reports no matched use
cases, confidence exactly 20, and a score of at most 40; consequently every
AI-path result has a match score of at most 40. -/
theorem c10_ai_path_degeneracy :
    (∀ (userReqs : UserRequirements) (tool : Tool) (enrichment : ToolEnrichment)
        (entries : List (String × String)),
      userReqs.use_cases = UseCasesVal.obj entries →
      (calculateCompatibilityScore userReqs tool enrichment).matchedUseCases = [] ∧
      (calculateCompatibilityScore userReqs tool enrichment).confidence = 20 ∧
      (calculateCompatibilityScore userReqs tool enrichment).score ≤ 40) ∧
    (∀ (query : String) (criteria : SearchCriteria),
      (smartUserRequirements query criteria).use_cases =
        UseCasesVal.obj (smartUseCasesObj criteria.useCases)) ∧
    (∀ (query : String) (criteria : SearchCriteria) (tools : List Tool)
        (enrichments : List (String × ToolEnrichment)),
      ∀ item ∈ (aiPathResults query criteria tools enrichments).results,
        item.matchScore ≤ 40) := by
  refine ⟨score_obj, fun _ _ => rfl, ?_⟩
  intro query criteria tools enrichments item hitem
  unfold aiPathResults at hitem
  simp only [List.mem_map] at hitem
  obtain ⟨m, hm, rfl⟩ := hitem
  obtain ⟨tool, enrichment, _, _, rfl⟩ := mem_matchToolsToUserNeeds hm
  have hs := (score_obj (smartUserRequirements query criteria) tool enrichment
    (smartUseCasesObj criteria.useCases) rfl).2.2
  simpa [mkToolMatch] using hs

/-- Witness for claim C10 at the concrete AI-path fixture. -/
theorem c10_ai_path_degeneracy_witness :
    (calculateCompatibilityScore (smartUserRequirements ("q") criteria7) tool7 enr7).confidence
        = 20 ∧
    item7 ∈ (aiPathResults ("q") criteria7 [tool7] [("WeakTool", enr7)]).results ∧
    item7.matchScore ≤ 40 := by
  have hmem : item7 ∈ (aiPathResults ("q") criteria7 [tool7] [("WeakTool", enr7)]).results := by
    rw [ai_eval7]
    exact List.mem_singleton.mpr rfl
  refine ⟨(c10_ai_path_degeneracy.1 _ tool7 enr7 _ rfl).2.1, hmem, ?_⟩
  exact c10_ai_path_degeneracy.2.2 ("q") criteria7 [tool7] [("WeakTool", enr7)] item7 hmem

/-- The use-case component is nonnegative whenever the accumulated sums are. -/
lemma ucComponent_nonneg (x w : ℚ) (hx : 0 ≤ x) (hw : 0 ≤ w) :
    0 ≤ if 0 < w then x / w * 60 else 0 := by
  split
  · exact mul_nonneg (div_nonneg hx hw) (by norm_num)
  · exact le_refl 0

/-- Claim C3: for every requirement and every enriched tool whose use-case
strengths lie in [0, 100], the score and the confidence both lie in
[0, 100]. -/
theorem c3_score_confidence_bounds (userReqs : UserRequirements) (tool : Tool)
    (enrichment : ToolEnrichment)
    (h : ∀ p ∈ enrichment.use_case_compatibility, 0 ≤ p.2.strength ∧ p.2.strength ≤ 100) :
    0 ≤ (calculateCompatibilityScore userReqs tool enrichment).score ∧
    (calculateCompatibilityScore userReqs tool enrichment).score ≤ 100 ∧
    0 ≤ (calculateCompatibilityScore userReqs tool enrichment).confidence ∧
    (calculateCompatibilityScore userReqs tool enrichment).confidence ≤ 100 := by
  have hstr : ∀ p ∈ enrichment.use_case_compatibility, 0 ≤ p.2.strength :=
    fun p hp => (h p hp).1
  have hbase : 0 ≤ (if userReqs.use_cases.jsLengthPos then
        userReqs.use_cases.tags.foldl (ucFold enrichment)
          ((0:ℚ), (0:ℚ), ([] : List MatchedUseCase))
      else ((0:ℚ), (0:ℚ), ([] : List MatchedUseCase))).1 ∧
      0 ≤ (if userReqs.use_cases.jsLengthPos then
        userReqs.use_cases.tags.foldl (ucFold enrichment)
          ((0:ℚ), (0:ℚ), ([] : List MatchedUseCase))
      else ((0:ℚ), (0:ℚ), ([] : List MatchedUseCase))).2.1 := by
    split
    · exact ucFold_nonneg hstr _ _ (le_refl 0) (le_refl 0)
    · constructor <;> norm_num
  simp only [calculateCompatibilityScore]
  refine ⟨?_, min_le_right _ _, ?_, min_le_left _ _⟩
  · refine le_min ?_ (by norm_num)
    have h1 := ucComponent_nonneg _ _ hbase.1 hbase.2
    have h2 := codingLevelComponent_nonneg userReqs enrichment
    have h3 := budgetComponent_nonneg userReqs enrichment
    have h4 := experienceComponent_nonneg userReqs enrichment
    linarith
  · exact le_min (by norm_num) (add_nonneg (by positivity) (by split <;> norm_num))

/-- Witness for claim C3 at the Scenario A fixture (single strength 95). -/
theorem c3_score_confidence_bounds_witness :
    0 ≤ (calculateCompatibilityScore reqs5 tool5 enr5).score ∧
    (calculateCompatibilityScore reqs5 tool5 enr5).score ≤ 100 ∧
    0 ≤ (calculateCompatibilityScore reqs5 tool5 enr5).confidence ∧
    (calculateCompatibilityScore reqs5 tool5 enr5).confidence ≤ 100 :=
  c3_score_confidence_bounds reqs5 tool5 enr5 (by
    intro p hp
    rw [show enr5.use_case_compatibility = [("website-creation",
      { strength := 95, type := UCType.primary, notes := "", limitations := none })] from rfl]
      at hp
    rw [List.mem_singleton.mp hp]
    norm_num)

/-- Claim C4: the sort comparator cycles on three concrete candidates
(compatibility/overall pairs 31/100, 35/99 and 39/50), so the relation it
induces is not transitive and hence not a consistent total ordering of the
candidate set. -/
theorem c4_comparator_not_consistent :
    (cmpMatches m4a m4b < 0 ∧ cmpMatches m4b m4c < 0 ∧ cmpMatches m4c m4a < 0) ∧
    ¬ (∀ a b c : ToolMatch, cmpMatches a b ≤ 0 → cmpMatches b c ≤ 0 → cmpMatches a c ≤ 0) := by
  have hab : cmpMatches m4a m4b = -1 := by
    norm_num [cmpMatches, m4a, m4b, lt_abs]
  have hbc : cmpMatches m4b m4c = -49 := by
    norm_num [cmpMatches, m4b, m4c, lt_abs]
  have hca : cmpMatches m4c m4a = -8 := by
    norm_num [cmpMatches, m4c, m4a, lt_abs]
  have hac : cmpMatches m4a m4c = 8 := by
    norm_num [cmpMatches, m4a, m4c, lt_abs]
  refine ⟨⟨by rw [hab]; norm_num, by rw [hbc]; norm_num, by rw [hca]; norm_num⟩, ?_⟩
  intro hT
  have htrans := hT m4a m4b m4c (by rw [hab]; norm_num) (by rw [hbc]; norm_num)
  rw [hac] at htrans
  norm_num at htrans

/-- Stripping a json-tagged fence wrapping recovers the trimmed inner
text. -/
lemma stripFences_json_wrap (t : String) :
    stripFences ("```json\n" ++ t ++ "\n```") = jsTrim t := by
  have hd : ("```json\n" ++ t ++ "\n```").data =
      '`' :: (('`' :: '`' :: 'j' :: 's' :: 'o' :: 'n' :: '\n' ::
        (t.data ++ ['\n', '`', '`'])) ++ ['`']) := by
    rw [String.data_append, String.data_append,
      show ("```json\n").data = ['`', '`', '`', 'j', 's', 'o', 'n', '\n'] by decide,
      show ("\n```").data = ['\n', '`', '`', '`'] by decide]
    simp
  have htrim : jsTrim ("```json\n" ++ t ++ "\n```") =
      String.mk ('`' :: '`' :: '`' :: 'j' :: 's' :: 'o' :: 'n' :: '\n' ::
        (t.data ++ ['\n', '`', '`', '`'])) := by
    unfold jsTrim
    rw [hd, trimL_no_ws _ _ _ (by decide) (by decide)]
    exact congrArg String.mk (by simp)
  have hsw : jsStartsWith (String.mk ('`' :: '`' :: '`' :: 'j' :: 's' :: 'o' :: 'n' :: '\n' ::
      (t.data ++ ['\n', '`', '`', '`']))) ("```json") = true := by
    unfold jsStartsWith
    rw [show (("```json") : String).data = ['`', '`', '`', 'j', 's', 'o', 'n'] by decide]
    exact startsWithL_self_append ['`', '`', '`', 'j', 's', 'o', 'n']
      ('\n' :: (t.data ++ ['\n', '`', '`', '`']))
  have hjd : jsDrop (String.mk ('`' :: '`' :: '`' :: 'j' :: 's' :: 'o' :: 'n' :: '\n' ::
      (t.data ++ ['\n', '`', '`', '`']))) 7 =
      String.mk ('\n' :: (t.data ++ ['\n', '`', '`', '`'])) := rfl
  have hew : jsEndsWith (String.mk ('\n' :: (t.data ++ ['\n', '`', '`', '`']))) ("```")
      = true := by
    unfold jsEndsWith
    rw [show (("```") : String).data = ['`', '`', '`'] by decide]
    rw [show (('\n' :: (t.data ++ ['\n', '`', '`', '`'])) : List Char).reverse =
      ['`', '`', '`'] ++ ('\n' :: (t.data.reverse ++ ['\n'])) by simp]
    rw [show ((['`', '`', '`'] : List Char)).reverse = ['`', '`', '`'] from rfl]
    exact startsWithL_self_append _ _
  have hdr : jsDropRight (String.mk ('\n' :: (t.data ++ ['\n', '`', '`', '`']))) 3 =
      String.mk ('\n' :: (t.data ++ ['\n'])) := by
    unfold jsDropRight
    apply congrArg String.mk
    rw [show (('\n' :: (t.data ++ ['\n', '`', '`', '`'])) : List Char).reverse =
      '`' :: '`' :: '`' :: ('\n' :: (t.data.reverse ++ ['\n'])) by simp]
    rw [show List.drop 3 ('`' :: '`' :: '`' :: ('\n' :: (t.data.reverse ++ ['\n']))) =
      '\n' :: (t.data.reverse ++ ['\n']) from rfl]
    simp
  unfold stripFences
  rw [htrim]
  dsimp only
  rw [hsw]
  simp only [if_true]
  rw [hjd, hew]
  simp only [if_true]
  rw [hdr]
  unfold jsTrim
  exact congrArg String.mk (trimL_wrap t.data)

/-- Stripping an untagged fence wrapping recovers the trimmed inner text. -/
lemma stripFences_bare_wrap (t : String) :
    stripFences ("```\n" ++ t ++ "\n```") = jsTrim t := by
  have hd : ("```\n" ++ t ++ "\n```").data =
      '`' :: (('`' :: '`' :: '\n' :: (t.data ++ ['\n', '`', '`'])) ++ ['`']) := by
    rw [String.data_append, String.data_append,
      show ("```\n").data = ['`', '`', '`', '\n'] by decide,
      show ("\n```").data = ['\n', '`', '`', '`'] by decide]
    simp
  have htrim : jsTrim ("```\n" ++ t ++ "\n```") =
      String.mk ('`' :: '`' :: '`' :: '\n' :: (t.data ++ ['\n', '`', '`', '`'])) := by
    unfold jsTrim
    rw [hd, trimL_no_ws _ _ _ (by decide) (by decide)]
    exact congrArg String.mk (by simp)
  have hsw1 : jsStartsWith (String.mk ('`' :: '`' :: '`' :: '\n' ::
      (t.data ++ ['\n', '`', '`', '`']))) ("```json") = false := by
    unfold jsStartsWith
    rw [show (("```json") : String).data = ['`', '`', '`', 'j', 's', 'o', 'n'] by decide]
    simp [startsWithL]
  have hsw2 : jsStartsWith (String.mk ('`' :: '`' :: '`' :: '\n' ::
      (t.data ++ ['\n', '`', '`', '`']))) ("```") = true := by
    unfold jsStartsWith
    rw [show (("```") : String).data = ['`', '`', '`'] by decide]
    exact startsWithL_self_append ['`', '`', '`'] ('\n' :: (t.data ++ ['\n', '`', '`', '`']))
  have hjd : jsDrop (String.mk ('`' :: '`' :: '`' :: '\n' ::
      (t.data ++ ['\n', '`', '`', '`']))) 3 =
      String.mk ('\n' :: (t.data ++ ['\n', '`', '`', '`'])) := rfl
  have hew : jsEndsWith (String.mk ('\n' :: (t.data ++ ['\n', '`', '`', '`']))) ("```")
      = true := by
    unfold jsEndsWith
    rw [show (("```") : String).data = ['`', '`', '`'] by decide]
    rw [show (('\n' :: (t.data ++ ['\n', '`', '`', '`'])) : List Char).reverse =
      ['`', '`', '`'] ++ ('\n' :: (t.data.reverse ++ ['\n'])) by simp]
    rw [show ((['`', '`', '`'] : List Char)).reverse = ['`', '`', '`'] from rfl]
    exact startsWithL_self_append _ _
  have hdr : jsDropRight (String.mk ('\n' :: (t.data ++ ['\n', '`', '`', '`']))) 3 =
      String.mk ('\n' :: (t.data ++ ['\n'])) := by
    unfold jsDropRight
    apply congrArg String.mk
    rw [show (('\n' :: (t.data ++ ['\n', '`', '`', '`'])) : List Char).reverse =
      '`' :: '`' :: '`' :: ('\n' :: (t.data.reverse ++ ['\n'])) by simp]
    rw [show List.drop 3 ('`' :: '`' :: '`' :: ('\n' :: (t.data.reverse ++ ['\n']))) =
      '\n' :: (t.data.reverse ++ ['\n']) from rfl]
    simp
  unfold stripFences
  rw [htrim]
  dsimp only
  rw [hsw1]
  simp only [Bool.false_eq_true, if_false]
  rw [hsw2]
  simp only [if_true]
  rw [hjd, hew]
  simp only [if_true]
  rw [hdr]
  unfold jsTrim
  exact congrArg String.mk (trimL_wrap t.data)

/-- Claim C8 as amended: fence stripping recovers the trimmed inner text for
a wrapping with the json language tag or with no tag (so parsing the
stripped text agrees with parsing the unfenced text); other language tags
are not stripped. -/
theorem c8_fence_strip_json_or_bare (t : String) :
    stripFences ("```json\n" ++ t ++ "\n```") = jsTrim t ∧
    stripFences ("```\n" ++ t ++ "\n```") = jsTrim t :=
  ⟨stripFences_json_wrap t, stripFences_bare_wrap t⟩

/-- Claim C8 counterexample: with the language tag js the fence is only
partially stripped, leaving the tag in the text handed to the JSON parser,
which therefore cannot recover the wrapped object. -/
theorem c8_language_tag_counterexample :
    stripFences ("```js\n\x7b\x7d\n```") = ("js\n\x7b\x7d") ∧
    stripFences ("```js\n\x7b\x7d\n```") ≠ jsTrim ("\x7b\x7d") := by decide

end AITracker
